import Mathlib

/-!
Formalisation of the MAX30003 biopotential AFE HAL driver (max30003.c /
max30003_example.c) as a shallow embedding.  SPI traffic is modelled by an
environment `SpiEnv` mapping the index of each bus transaction to the HAL
status it returns and the 4 receive bytes it leaves in the receive buffer
(covering arbitrary device and HAL behaviour, including what a failed
transaction leaves behind).  Each driver operation is a pure function of the
environment and the transaction counter, returning its HAL status, its
result value, the list of bus events it caused (chip-select edges and byte
exchanges) and the advanced counter.
-/

namespace MAX30003

/- Constants from max30003.h (values copied bit for bit). -/

def MAX30003_ETAG_MASK : Nat := 0x07
def MAX30003_ETAG_SHIFT : Nat := 3
def MAX30003_ECG_VOLTAGE_DATA_MASK : Nat := 0x3FFFF
def MAX30003_ECG_VOLTAGE_DATA_SHIFT : Nat := 6
def MAX30003_REG_STATUS : Nat := 0x01
def MAX30003_REG_EN_INT : Nat := 0x02
def MAX30003_REG_FIFO_RST : Nat := 0x0A
def MAX30003_FIFO_CMD_ECG_BURST : Nat := 0x20
def MAX30003_FIFO_CMD_ECG : Nat := 0x21
def MAX30003_FIFO_LENGTH : Nat := 32
def MAX30003_INT_EINT : Nat := 1 <<< 23
def MAX30003_INT_EOVF : Nat := 1 <<< 22
def MAX30003_INT_FSTINT : Nat := 1 <<< 21
def MAX30003_INT_DCLOFFINT : Nat := 1 <<< 20
def MAX30003_INT_LONINT : Nat := 1 <<< 11
def MAX30003_INT_RRINT : Nat := 1 <<< 10
def MAX30003_INT_SAMP : Nat := 1 <<< 9
def MAX30003_INT_PLLINT : Nat := 1 <<< 8
def MAX30003_FIFO_RST_D : Nat := 0x000000

def MAX30003_EN_INT_DEFAULT_CONFIG : Nat := 0x000003
def MAX30003_EN_INT_EINT_EN : Nat := 1 <<< 23
def MAX30003_EN_INT_EOVF_EN : Nat := 1 <<< 22
def MAX30003_EN_INT_FSTINT_DIS : Nat := 0 <<< 21
def MAX30003_EN_INT_DCLOFFINT_DIS : Nat := 0 <<< 20
def MAX30003_EN_INT_LONINT_DIS : Nat := 0 <<< 11
def MAX30003_EN_INT_RRINT_DIS : Nat := 0 <<< 10
def MAX30003_EN_INT_SAMP_DIS : Nat := 0 <<< 9
def MAX30003_EN_INT_PLLINT_DIS : Nat := 0 <<< 8
def MAX30003_EN_INT_INTB_TYPE_OPEN_DRAIN_125K_PULLUP : Nat := 0x3 <<< 0

/-- HAL status codes (stm32 HAL_StatusTypeDef). -/
inductive HAL_StatusTypeDef where
  | HAL_OK
  | HAL_ERROR
  | HAL_BUSY
  | HAL_TIMEOUT
deriving DecidableEq, Repr

open HAL_StatusTypeDef

/-- A 4-byte SPI frame (tx_buf / rx_buf in the C code). -/
structure Bytes4 where
  b0 : Nat
  b1 : Nat
  b2 : Nat
  b3 : Nat
deriving DecidableEq, Repr

/-- Observable bus events: chip-select edges, a full-duplex 4-byte exchange
(HAL_SPI_TransmitReceive) carrying tx bytes, rx bytes and the HAL status, and
a transmit-only frame (HAL_SPI_Transmit) whose response is never read. -/
inductive SpiEvent where
  | csAssert : SpiEvent
  | csDeassert : SpiEvent
  | exchange : Bytes4 → Bytes4 → HAL_StatusTypeDef → SpiEvent
  | transmit : Bytes4 → HAL_StatusTypeDef → SpiEvent
deriving DecidableEq, Repr

/-- The environment: for the n-th bus transaction, the HAL status returned
and the contents of the receive buffer afterwards. -/
def SpiEnv : Type := Nat → HAL_StatusTypeDef × Bytes4

/-- Reconstruction of a 24-bit register value from response bytes 1..3, MSB
first: rx[1]<<16 | rx[2]<<8 | rx[3] (inline expression in max30003.c). -/
def word24 (rx : Bytes4) : Nat :=
  (rx.b1 <<< 16) ||| (rx.b2 <<< 8) ||| rx.b3

/-- C1 helper: MAX30003_ExtractETag from max30003.c line 40. -/
def MAX30003_ExtractETag (fifo_data : Nat) : Nat :=
  (fifo_data >>> MAX30003_ETAG_SHIFT) &&& MAX30003_ETAG_MASK

/-- MAX30003_ExtractECGData from max30003.c line 49. -/
def MAX30003_ExtractECGData (fifo_data : Nat) : Nat :=
  (fifo_data >>> MAX30003_ECG_VOLTAGE_DATA_SHIFT) &&& MAX30003_ECG_VOLTAGE_DATA_MASK

/-- Result of one chip-select-bracketed full-duplex exchange. -/
structure XferResult where
  status : HAL_StatusTypeDef
  rx : Bytes4
  trace : List SpiEvent
  next : Nat
deriving DecidableEq, Repr

/-- MAX30003_SPI_TransmitReceive: CS low, HAL_SPI_TransmitReceive, CS high
(max30003.c lines 84-92).  CS is deasserted whatever the status. -/
def MAX30003_SPI_TransmitReceive (env : SpiEnv) (n : Nat) (tx : Bytes4) : XferResult :=
  let r := env n
  { status := r.1
    rx := r.2
    trace := [SpiEvent.csAssert, SpiEvent.exchange tx r.2 r.1, SpiEvent.csDeassert]
    next := n + 1 }

/-- Result of a register read: status, the out-parameter value and trace. -/
structure ReadResult where
  status : HAL_StatusTypeDef
  value : Nat
  trace : List SpiEvent
  next : Nat
deriving DecidableEq, Repr

/-- MAX30003_ReadReg (max30003.c lines 101-115): tx_buf = {(reg<<1)|1,0,0,0}
(the command byte is stored in a uint8_t, hence the mod 256); on HAL_OK the
out-parameter receives rx[1]<<16|rx[2]<<8|rx[3], otherwise it keeps its
previous value data0. -/
def MAX30003_ReadReg (env : SpiEnv) (n : Nat) (reg : Nat) (data0 : Nat) : ReadResult :=
  let tx : Bytes4 := ⟨((reg <<< 1) ||| 0x01) % 256, 0, 0, 0⟩
  let r := MAX30003_SPI_TransmitReceive env n tx
  { status := r.status
    value := if r.status = HAL_OK then word24 r.rx else data0
    trace := r.trace
    next := r.next }

/-- Result of a register write: status and trace (no value is produced). -/
structure WriteResult where
  status : HAL_StatusTypeDef
  trace : List SpiEvent
  next : Nat
deriving DecidableEq, Repr

/-- MAX30003_WriteReg (max30003.c lines 124-138): transmits
{(reg<<1)&0xFE, (data>>16)&0xFF, (data>>8)&0xFF, data&0xFF} with
HAL_SPI_Transmit between the CS edges; the response is never read. -/
def MAX30003_WriteReg (env : SpiEnv) (n : Nat) (reg : Nat) (data : Nat) : WriteResult :=
  let tx : Bytes4 :=
    ⟨(reg <<< 1) &&& 0xFE, (data >>> 16) &&& 0xFF, (data >>> 8) &&& 0xFF, data &&& 0xFF⟩
  let st := (env n).1
  { status := st
    trace := [SpiEvent.csAssert, SpiEvent.transmit tx st, SpiEvent.csDeassert]
    next := n + 1 }

/-- Result of a FIFO read: the final status, the buffer stores performed (as
ordered (index, word) pairs, recording exactly which fifo_data entries the C
loop assigned and with what value) and the trace. -/
structure FifoResult where
  status : HAL_StatusTypeDef
  writes : List (Nat × Nat)
  trace : List SpiEvent
  next : Nat
deriving DecidableEq, Repr

/-- The loop of MAX30003_ReadFIFO (max30003.c lines 155-161), one recursive
step per iteration `for (i = 0; i < count && status == HAL_OK; ++i)`: the
exchange is issued, fifo_data[i] is assigned from the receive buffer
UNCONDITIONALLY (also when the exchange just failed), and after the first
iteration the command byte becomes 0x00.  `fuel` is count - i. -/
def readFifoGo (env : SpiEnv) (txb : Nat) (i n : Nat) : Nat → FifoResult
  | 0 => { status := HAL_OK, writes := [], trace := [], next := n }
  | fuel + 1 =>
    let r := MAX30003_SPI_TransmitReceive env n ⟨txb, 0, 0, 0⟩
    let w := word24 r.rx
    let txb1 := if i = 0 then 0x00 else txb
    if r.status = HAL_OK then
      let rest := readFifoGo env txb1 (i + 1) r.next fuel
      { status := rest.status
        writes := (i, w) :: rest.writes
        trace := r.trace ++ rest.trace
        next := rest.next }
    else
      { status := r.status, writes := [(i, w)], trace := r.trace, next := r.next }

/-- MAX30003_ReadFIFO (max30003.c lines 147-164): the first command byte is
((count>1 ? 0x20 : 0x21)<<1)|1 stored in a uint8_t, then the loop above. -/
def MAX30003_ReadFIFO (env : SpiEnv) (n : Nat) (count : Nat) : FifoResult :=
  let cmd := if count > 1 then MAX30003_FIFO_CMD_ECG_BURST else MAX30003_FIFO_CMD_ECG
  readFifoGo env (((cmd <<< 1) ||| 0x01) % 256) 0 n count

/-- MAX30003_GetInterruptStatus (max30003.c lines 172-188): read STATUS
(0x01), on failure return at once; read EN_INT (0x02), on failure return at
once; otherwise store status & en_int & 0xF00F00 in the out-parameter.  The
out-parameter's previous value ea0 survives every failing path. -/
def MAX30003_GetInterruptStatus (env : SpiEnv) (n : Nat) (ea0 : Nat) : ReadResult :=
  let r1 := MAX30003_ReadReg env n MAX30003_REG_STATUS 0
  if r1.status = HAL_OK then
    let r2 := MAX30003_ReadReg env r1.next MAX30003_REG_EN_INT 0
    if r2.status = HAL_OK then
      { status := HAL_OK
        value := r1.value &&& r2.value &&& 0xF00F00
        trace := r1.trace ++ r2.trace
        next := r2.next }
    else
      { status := r2.status, value := ea0, trace := r1.trace ++ r2.trace, next := r2.next }
  else
    { status := r1.status, value := ea0, trace := r1.trace, next := r1.next }

/-- High-level actions the interrupt dispatcher can take. -/
inductive IrqAction where
  | drainFifo : Nat → IrqAction
  | writeReg : Nat → Nat → IrqAction
deriving DecidableEq, Repr

/-- Result of one interrupt dispatch pass. -/
structure IrqResult where
  enabled_active : Nat
  actions : List IrqAction
  trace : List SpiEvent
  next : Nat
deriving DecidableEq, Repr

/-- MAX30003_IRQHandler (max30003_example.c lines 39-63): calls
MAX30003_GetInterruptStatus DISCARDING its return status, then dispatches on
whatever enabled_active holds — the computed mask when the reads succeeded,
the (uninitialised) previous value ea0 when they did not.  EINT set → read
FIFO_LENGTH samples from the FIFO; EOVF set → write FIFO_RST with
MAX30003_FIFO_RST_D; the six remaining branches have empty bodies in the
source. -/
def MAX30003_IRQHandler (env : SpiEnv) (n : Nat) (ea0 : Nat) : IrqResult :=
  let g := MAX30003_GetInterruptStatus env n ea0
  let ea := g.value
  let s1 : List IrqAction × List SpiEvent × Nat :=
    if ea &&& MAX30003_INT_EINT ≠ 0 then
      let fr := MAX30003_ReadFIFO env g.next MAX30003_FIFO_LENGTH
      ([IrqAction.drainFifo MAX30003_FIFO_LENGTH], fr.trace, fr.next)
    else ([], [], g.next)
  let s2 : List IrqAction × List SpiEvent × Nat :=
    if ea &&& MAX30003_INT_EOVF ≠ 0 then
      let wr := MAX30003_WriteReg env s1.2.2 MAX30003_REG_FIFO_RST MAX30003_FIFO_RST_D
      ([IrqAction.writeReg MAX30003_REG_FIFO_RST MAX30003_FIFO_RST_D], wr.trace, wr.next)
    else ([], [], s1.2.2)
  { enabled_active := ea
    actions := s1.1 ++ s2.1
    trace := g.trace ++ s1.2.1 ++ s2.2.1
    next := s2.2.2 }

/-- The command byte (first transmitted byte) of every full-duplex exchange
in a trace, in order. -/
def commandBytes (tr : List SpiEvent) : List Nat :=
  tr.filterMap fun e =>
    match e with
    | SpiEvent.exchange tx _ _ => some tx.b0
    | _ => none

/-- Modelled from the spec: §4.4 ConfigAssembler's pure function
`assemble(baseDefault, options) = baseDefault bitwise-ORed with every option
value`.  The source has no such named function: MAX30003_ConfigureRegisters
(max30003_example.c lines 116-190) inlines this composition as literal
OR-chains; `en_int_value_eq_assemble` below ties one of those chains to this
definition. -/
def assemble (baseDefault : Nat) (options : List Nat) : Nat :=
  options.foldl (fun acc v => acc ||| v) baseDefault

/-- The option constants OR-ed onto the EN_INT default in
MAX30003_ConfigureRegisters (max30003_example.c lines 119-128), in source
order. -/
def en_int_options : List Nat :=
  [MAX30003_EN_INT_EINT_EN, MAX30003_EN_INT_EOVF_EN, MAX30003_EN_INT_FSTINT_DIS,
   MAX30003_EN_INT_DCLOFFINT_DIS, MAX30003_EN_INT_LONINT_DIS, MAX30003_EN_INT_RRINT_DIS,
   MAX30003_EN_INT_SAMP_DIS, MAX30003_EN_INT_PLLINT_DIS,
   MAX30003_EN_INT_INTB_TYPE_OPEN_DRAIN_125K_PULLUP]

/-- The literal OR-chain written to EN_INT by MAX30003_ConfigureRegisters. -/
def en_int_write_value : Nat :=
  MAX30003_EN_INT_DEFAULT_CONFIG
    ||| MAX30003_EN_INT_EINT_EN
    ||| MAX30003_EN_INT_EOVF_EN
    ||| MAX30003_EN_INT_FSTINT_DIS
    ||| MAX30003_EN_INT_DCLOFFINT_DIS
    ||| MAX30003_EN_INT_LONINT_DIS
    ||| MAX30003_EN_INT_RRINT_DIS
    ||| MAX30003_EN_INT_SAMP_DIS
    ||| MAX30003_EN_INT_PLLINT_DIS
    ||| MAX30003_EN_INT_INTB_TYPE_OPEN_DRAIN_125K_PULLUP

/- Concrete environments used by witnesses and counterexamples. -/

/-- Every transaction succeeds; rx bytes 1..3 are 0x12, 0x34, 0x56. -/
def envOK : SpiEnv := fun _ => (HAL_OK, ⟨0, 0x12, 0x34, 0x56⟩)

/-- Every transaction succeeds; rx bytes 1..3 are all 0xFF (24-bit value
0xFFFFFF). -/
def envFF : SpiEnv := fun _ => (HAL_OK, ⟨0, 0xFF, 0xFF, 0xFF⟩)

/-- Every transaction fails with HAL_ERROR. -/
def envERR : SpiEnv := fun _ => (HAL_ERROR, ⟨0, 0, 0, 0⟩)

/-- Transactions 0 and 1 succeed (rx value n+1 in the low byte), transaction
2 fails with HAL_ERROR leaving zeros in the receive buffer, later
transactions succeed. -/
def envFail3rd : SpiEnv := fun n =>
  if n < 2 then (HAL_OK, ⟨0, 0, 0, n + 1⟩)
  else if n = 2 then (HAL_ERROR, ⟨0, 0, 0, 0⟩)
  else (HAL_OK, ⟨0, 0, 0, 9⟩)

/-- Transaction 0 (the STATUS read) succeeds with all-ones payload,
transaction 1 (the EN_INT read) fails. -/
def envFail2nd : SpiEnv := fun n =>
  if n = 0 then (HAL_OK, ⟨0, 0xFF, 0xFF, 0xFF⟩) else (HAL_TIMEOUT, ⟨0, 0, 0, 0⟩)

/-- Every transaction succeeds with an all-zero payload. -/
def envZero : SpiEnv := fun _ => (HAL_OK, ⟨0, 0, 0, 0⟩)

/-- C1: MAX30003_ExtractETag w = (w >> 3) & 0x7 and MAX30003_ExtractECGData w
= (w >> 6) & 0x3FFFF for every FIFO word w; both are pure functions of w (in
this embedding they are plain functions, so freedom from side effects is
inherent). -/
theorem extract_fields_spec :
    ∀ w : Nat, MAX30003_ExtractETag w = (w >>> 3) &&& 0x7 ∧
      MAX30003_ExtractECGData w = (w >>> 6) &&& 0x3FFFF :=
  fun _ => ⟨rfl, rfl⟩

/-- C2: MAX30003_GetInterruptStatus reads STATUS (0x01) first and EN_INT
(0x02) second, in that fixed order (visible in the trace), and when both
reads succeed it stores exactly status & en_int & 0xF00F00 into the
out-parameter and returns HAL_OK, for arbitrary register contents. -/
theorem getInterruptStatus_spec (env : SpiEnv) (n ea0 : Nat)
    (h1 : (env n).1 = HAL_OK) (h2 : (env (n + 1)).1 = HAL_OK) :
    (MAX30003_GetInterruptStatus env n ea0).status = HAL_OK ∧
    (MAX30003_GetInterruptStatus env n ea0).value =
      word24 (env n).2 &&& word24 (env (n + 1)).2 &&& 0xF00F00 ∧
    (MAX30003_GetInterruptStatus env n ea0).trace =
      [SpiEvent.csAssert,
       SpiEvent.exchange ⟨(MAX30003_REG_STATUS <<< 1) ||| 0x01, 0, 0, 0⟩ (env n).2 HAL_OK,
       SpiEvent.csDeassert,
       SpiEvent.csAssert,
       SpiEvent.exchange ⟨(MAX30003_REG_EN_INT <<< 1) ||| 0x01, 0, 0, 0⟩ (env (n + 1)).2 HAL_OK,
       SpiEvent.csDeassert] := by
  refine ⟨?_, ?_, ?_⟩ <;>
    simp [MAX30003_GetInterruptStatus, MAX30003_ReadReg, MAX30003_SPI_TransmitReceive,
      h1, h2, MAX30003_REG_STATUS, MAX30003_REG_EN_INT]

/-- C2 witness: with both registers reading back 0xFFFFFF the result is
0xF00F00, and with both reading back 0x000000 it is 0x000000. -/
theorem getInterruptStatus_spec_witness :
    ((MAX30003_GetInterruptStatus envFF 0 0).status = HAL_OK ∧
      (MAX30003_GetInterruptStatus envFF 0 0).value = 0xF00F00) ∧
    (MAX30003_GetInterruptStatus envZero 0 7).value = 0x000000 := by
  have hFF := getInterruptStatus_spec envFF 0 0 (by decide) (by decide)
  have h0 := getInterruptStatus_spec envZero 0 7 (by decide) (by decide)
  exact ⟨⟨hFF.1, by rw [hFF.2.1]; decide⟩, by rw [h0.2.1]; decide⟩

/-- C5: MAX30003_ReadReg transmits exactly [(reg<<1)|1, 0, 0, 0] in one
full-duplex exchange bracketed by chip-select assert/deassert, and on success
stores rx[1]<<16 | rx[2]<<8 | rx[3] into the out-parameter.  The hypothesis
reg < 0x80 is the spec's RegisterAddress range; the uint8_t command byte then
needs no truncation. -/
theorem readReg_spec (env : SpiEnv) (n reg data0 : Nat) (h : reg < 0x80) :
    (MAX30003_ReadReg env n reg data0).trace =
      [SpiEvent.csAssert,
       SpiEvent.exchange ⟨(reg <<< 1) ||| 0x01, 0, 0, 0⟩ (env n).2 (env n).1,
       SpiEvent.csDeassert] ∧
    ((env n).1 = HAL_OK →
      (MAX30003_ReadReg env n reg data0).value =
        ((env n).2.b1 <<< 16) ||| ((env n).2.b2 <<< 8) ||| (env n).2.b3) := by
  have hb : ((reg <<< 1) ||| 0x01) % 256 = (reg <<< 1) ||| 0x01 := by
    apply Nat.mod_eq_of_lt
    have h1 : reg <<< 1 < 2 ^ 8 := by rw [Nat.shiftLeft_eq]; omega
    have := Nat.or_lt_two_pow h1 (show (0x01 : Nat) < 2 ^ 8 by norm_num)
    omega
  constructor
  · simp [MAX30003_ReadReg, MAX30003_SPI_TransmitReceive, hb]
  · intro hok
    simp [MAX30003_ReadReg, MAX30003_SPI_TransmitReceive, hok, word24]

/-- C5 witness: reading register 0x01 through envOK gives command byte 0x03
and value 0x123456. -/
theorem readReg_spec_witness :
    (MAX30003_ReadReg envOK 0 0x01 0).trace =
      [SpiEvent.csAssert,
       SpiEvent.exchange ⟨(0x01 <<< 1) ||| 0x01, 0, 0, 0⟩ (envOK 0).2 (envOK 0).1,
       SpiEvent.csDeassert] ∧
    (MAX30003_ReadReg envOK 0 0x01 0).value = 0x123456 := by
  have h := readReg_spec envOK 0 0x01 0 (by decide)
  exact ⟨h.1, by rw [h.2 (by decide)]; decide⟩

/-- C6: MAX30003_WriteReg transmits exactly
[(reg<<1)&0xFE, (v>>16)&0xFF, (v>>8)&0xFF, v&0xFF] bracketed by chip-select
assert/deassert, with no response payload interpreted (the transmit event
carries no receive data); the three payload bytes are the MSB-first bytes of
v & 0xFFFFFF, i.e. the value is truncated to its low 24 bits. -/
theorem writeReg_spec (env : SpiEnv) (n reg v : Nat) :
    (MAX30003_WriteReg env n reg v).trace =
      [SpiEvent.csAssert,
       SpiEvent.transmit
         ⟨(reg <<< 1) &&& 0xFE, (v >>> 16) &&& 0xFF, (v >>> 8) &&& 0xFF, v &&& 0xFF⟩
         (env n).1,
       SpiEvent.csDeassert] ∧
    (v >>> 16) &&& 0xFF = ((v &&& 0xFFFFFF) >>> 16) &&& 0xFF ∧
    (v >>> 8) &&& 0xFF = ((v &&& 0xFFFFFF) >>> 8) &&& 0xFF ∧
    v &&& 0xFF = (v &&& 0xFFFFFF) &&& 0xFF := by
  have h8 : (0xFF : Nat) = 2 ^ 8 - 1 := by norm_num
  have h24 : (0xFFFFFF : Nat) = 2 ^ 24 - 1 := by norm_num
  refine ⟨rfl, ?_, ?_, ?_⟩ <;>
    · rw [h8, h24]
      simp only [Nat.and_pow_two_sub_one_eq_mod, Nat.shiftRight_eq_div_pow]
      omega

/-- C10: on any transport error MAX30003_ReadReg leaves the out-parameter
data unchanged, and MAX30003_GetInterruptStatus leaves enabled_active
unchanged whether the first or the second read fails: the previous value
survives every failing call. -/
theorem out_params_unchanged_on_error :
    (∀ (env : SpiEnv) (n reg data0 : Nat), (env n).1 ≠ HAL_OK →
      (MAX30003_ReadReg env n reg data0).value = data0) ∧
    (∀ (env : SpiEnv) (n ea0 : Nat), (env n).1 ≠ HAL_OK →
      (MAX30003_GetInterruptStatus env n ea0).value = ea0) ∧
    (∀ (env : SpiEnv) (n ea0 : Nat), (env (n + 1)).1 ≠ HAL_OK →
      (MAX30003_GetInterruptStatus env n ea0).value = ea0) := by
  refine ⟨?_, ?_, ?_⟩
  · intro env n reg data0 h
    simp [MAX30003_ReadReg, MAX30003_SPI_TransmitReceive, h]
  · intro env n ea0 h
    simp [MAX30003_GetInterruptStatus, MAX30003_ReadReg, MAX30003_SPI_TransmitReceive, h]
  · intro env n ea0 h
    by_cases h1 : (env n).1 = HAL_OK <;>
      simp [MAX30003_GetInterruptStatus, MAX30003_ReadReg, MAX30003_SPI_TransmitReceive, h1, h]

/-- C10 witness: a failed read at 0 keeps data 0x123456; a failed STATUS
read keeps enabled_active 0xABCDEF; a failed EN_INT read (after a successful
STATUS read) keeps enabled_active 0x777. -/
theorem out_params_unchanged_on_error_witness :
    (MAX30003_ReadReg envERR 0 0x01 0x123456).value = 0x123456 ∧
    (MAX30003_GetInterruptStatus envERR 0 0xABCDEF).value = 0xABCDEF ∧
    (MAX30003_GetInterruptStatus envFail2nd 0 0x777).value = 0x777 :=
  ⟨out_params_unchanged_on_error.1 envERR 0 0x01 0x123456 (by decide),
   out_params_unchanged_on_error.2.1 envERR 0 0xABCDEF (by decide),
   out_params_unchanged_on_error.2.2 envFail2nd 0 0x777 (by decide)⟩

/-- C8: in the dispatch pass, whenever the enabled-active value used by the
dispatcher has the EINT bit (bit 23) set the handler drains FIFO_LENGTH = 32
samples via the FIFO decoder, and whenever the EOVF bit (bit 22) is set it
writes FIFO_RST_D = 0 to the FIFO_RST register 0x0A. -/
theorem irq_dispatch_actions (env : SpiEnv) (n ea0 : Nat) :
    ((MAX30003_GetInterruptStatus env n ea0).value &&& MAX30003_INT_EINT ≠ 0 →
      IrqAction.drainFifo MAX30003_FIFO_LENGTH ∈ (MAX30003_IRQHandler env n ea0).actions) ∧
    ((MAX30003_GetInterruptStatus env n ea0).value &&& MAX30003_INT_EOVF ≠ 0 →
      IrqAction.writeReg MAX30003_REG_FIFO_RST MAX30003_FIFO_RST_D ∈
        (MAX30003_IRQHandler env n ea0).actions) ∧
    MAX30003_FIFO_LENGTH = 32 ∧ MAX30003_INT_EINT = 1 <<< 23 ∧
    MAX30003_INT_EOVF = 1 <<< 22 ∧ MAX30003_REG_FIFO_RST = 0x0A ∧
    MAX30003_FIFO_RST_D = 0 := by
  refine ⟨?_, ?_, rfl, rfl, rfl, rfl, rfl⟩
  · intro h
    simp [MAX30003_IRQHandler, h]
  · intro h
    by_cases h1 : (MAX30003_GetInterruptStatus env n ea0).value &&& MAX30003_INT_EINT ≠ 0 <;>
      simp [MAX30003_IRQHandler, h, h1]

/-- C8 witness: with both registers reading 0xFFFFFF the computed set is
0xF00F00, so both the 32-sample drain and the FIFO_RST write are
dispatched. -/
theorem irq_dispatch_actions_witness :
    IrqAction.drainFifo MAX30003_FIFO_LENGTH ∈ (MAX30003_IRQHandler envFF 0 0).actions ∧
    IrqAction.writeReg MAX30003_REG_FIFO_RST MAX30003_FIFO_RST_D ∈
      (MAX30003_IRQHandler envFF 0 0).actions :=
  ⟨(irq_dispatch_actions envFF 0 0).1 (by decide),
   (irq_dispatch_actions envFF 0 0).2.1 (by decide)⟩

/-- Folding bitwise OR over a list is invariant under permutation of the
list (OR is commutative and associative). -/
theorem assemble_perm_invariant (l₁ l₂ : List Nat) (h : l₁.Perm l₂) :
    ∀ base : Nat, assemble base l₁ = assemble base l₂ := by
  induction h with
  | nil => intro _; rfl
  | cons x _ ih => intro base; exact ih (base ||| x)
  | swap x y l =>
      intro base
      have hb : (base ||| y) ||| x = (base ||| x) ||| y := by
        rw [Nat.or_assoc, Nat.or_assoc, Nat.or_comm y x]
      show assemble ((base ||| y) ||| x) l = assemble ((base ||| x) ||| y) l
      rw [hb]
  | trans _ _ ih₁ ih₂ => intro base; exact (ih₁ base).trans (ih₂ base)

/-- C9: config assembly is the OR of a base default with every option value,
pure and deterministic (a Lean function): an empty option sequence returns
the base unchanged, and for pairwise-disjoint options the result is
order-independent; the literal OR-chain the source writes to EN_INT equals
assemble of the EN_INT default with the source's option list. -/
theorem assemble_spec :
    (∀ base : Nat, assemble base [] = base) ∧
    (∀ (base : Nat) (l₁ l₂ : List Nat),
      l₁.Pairwise (fun a b => a &&& b = 0) → l₁.Perm l₂ →
      assemble base l₁ = assemble base l₂) ∧
    en_int_write_value = assemble MAX30003_EN_INT_DEFAULT_CONFIG en_int_options :=
  ⟨fun _ => rfl,
   fun base _ _ _ hp => assemble_perm_invariant _ _ hp base,
   by decide⟩

/-- C9 witness: assembling the EN_INT default with no options returns it
unchanged, and swapping two disjoint options does not change the result. -/
theorem assemble_spec_witness :
    assemble 0x000003 [] = 0x000003 ∧
    assemble 0x000003 [0x800000, 0x400000] = assemble 0x000003 [0x400000, 0x800000] :=
  ⟨assemble_spec.1 0x000003,
   assemble_spec.2.1 0x000003 _ _ (by decide) (List.Perm.swap 0x400000 0x800000 [])⟩

/-- C3 counterexample: with the 3rd of 5 requested samples failing
(envFail3rd), MAX30003_ReadFIFO returns the error but has written THREE
buffer entries — indices 0, 1 and 2 — because the C loop assigns
fifo_data[i] unconditionally after the exchange, also when that exchange
just failed; the claim's "exactly 2 decoded words, no entry at the failure
index written" is false. -/
theorem readFIFO_third_failure_counterexample :
    (MAX30003_ReadFIFO envFail3rd 0 5).status = HAL_ERROR ∧
    (MAX30003_ReadFIFO envFail3rd 0 5).writes.map Prod.fst = [0, 1, 2] ∧
    ¬((MAX30003_ReadFIFO envFail3rd 0 5).writes.map Prod.fst = [0, 1]) := by decide

/-- Behaviour of the FIFO loop when the m-th exchange (0-based) is the first
to fail within the remaining fuel: the failing status is returned, exactly
the entries at offsets i..i+m are written (the last one from the failed
exchange's receive buffer) and exactly m+1 exchanges were issued. -/
theorem readFifoGo_first_failure (env : SpiEnv) :
    ∀ (m fuel i n txb : Nat), m < fuel →
    (∀ j, j < m → (env (n + j)).1 = HAL_OK) →
    (env (n + m)).1 ≠ HAL_OK →
    (readFifoGo env txb i n fuel).status = (env (n + m)).1 ∧
    (readFifoGo env txb i n fuel).writes =
      (List.range (m + 1)).map (fun j => (i + j, word24 (env (n + j)).2)) ∧
    (readFifoGo env txb i n fuel).next = n + m + 1 := by
  intro m
  induction m with
  | zero =>
    intro fuel i n txb hm _ hfail
    match fuel, hm with
    | fuel + 1, _ =>
      rw [show n + 0 = n by omega] at hfail
      simp [readFifoGo, MAX30003_SPI_TransmitReceive, hfail,
        show List.range 1 = [0] from rfl]
  | succ m ih =>
    intro fuel i n txb hm hok hfail
    match fuel, hm with
    | fuel + 1, _ =>
      have h0 : (env n).1 = HAL_OK := by simpa using hok 0 (by omega)
      have hok1 : ∀ j, j < m → (env (n + 1 + j)).1 = HAL_OK := fun j hj => by
        have := hok (j + 1) (by omega)
        rwa [show n + (j + 1) = n + 1 + j by omega] at this
      have hfail1 : (env (n + 1 + m)).1 ≠ HAL_OK := by
        rwa [show n + (m + 1) = n + 1 + m by omega] at hfail
      obtain ⟨ihs, ihw, ihn⟩ :=
        ih fuel (i + 1) (n + 1) (if i = 0 then 0x00 else txb) (by omega) hok1 hfail1
      refine ⟨?_, ?_, ?_⟩
      · rw [show n + (m + 1) = n + 1 + m by omega, ← ihs]
        simp [readFifoGo, MAX30003_SPI_TransmitReceive, h0]
      · have hw : (readFifoGo env txb i n (fuel + 1)).writes =
            (i, word24 (env n).2) ::
              (readFifoGo env (if i = 0 then 0x00 else txb) (i + 1) (n + 1) fuel).writes := by
          simp [readFifoGo, MAX30003_SPI_TransmitReceive, h0]
        rw [hw, ihw]
        conv_rhs => rw [List.range_succ_eq_map, List.map_cons, List.map_map]
        refine List.cons_eq_cons.mpr ⟨by simp, ?_⟩
        apply List.map_congr_left
        intro j _
        simp only [Function.comp_apply, Nat.succ_eq_add_one]
        rw [show i + (j + 1) = i + 1 + j by omega, show n + (j + 1) = n + 1 + j by omega]
      · have hn : (readFifoGo env txb i n (fuel + 1)).next =
            (readFifoGo env (if i = 0 then 0x00 else txb) (i + 1) (n + 1) fuel).next := by
          simp [readFifoGo, MAX30003_SPI_TransmitReceive, h0]
        rw [hn, ihn]
        omega

/-- C3 (amended): if the k-th exchange (1-based, k ≤ count) is the first to
fail, MAX30003_ReadFIFO stops immediately (exactly k exchanges issued) and
returns that error; the k−1 words decoded from the earlier successful
exchanges are present unchanged at indices 0..k−2, AND the entry at the
failure index k−1 is also written, with the word decoded from the receive
buffer the failed exchange left behind; no entry past the failure index is
touched. -/
theorem readFIFO_stops_at_first_error (env : SpiEnv) (n count k : Nat)
    (hk1 : 1 ≤ k) (hk : k ≤ count)
    (hok : ∀ j, j < k - 1 → (env (n + j)).1 = HAL_OK)
    (hfail : (env (n + (k - 1))).1 ≠ HAL_OK) :
    (MAX30003_ReadFIFO env n count).status = (env (n + (k - 1))).1 ∧
    (MAX30003_ReadFIFO env n count).writes =
      (List.range k).map (fun j => (j, word24 (env (n + j)).2)) ∧
    (MAX30003_ReadFIFO env n count).next = n + k := by
  obtain ⟨hs, hw, hn⟩ :=
    readFifoGo_first_failure env (k - 1) count 0 n
      ((((if count > 1 then MAX30003_FIFO_CMD_ECG_BURST else MAX30003_FIFO_CMD_ECG) <<< 1)
          ||| 0x01) % 256)
      (by omega) hok hfail
  refine ⟨hs, ?_, ?_⟩
  · have hw' : (MAX30003_ReadFIFO env n count).writes =
        (List.range (k - 1 + 1)).map (fun j => (0 + j, word24 (env (n + j)).2)) := hw
    rw [hw', show k - 1 + 1 = k by omega]
    apply List.map_congr_left
    intro j _
    simp
  · have hn' : (MAX30003_ReadFIFO env n count).next = n + (k - 1) + 1 := hn
    omega

/-- C3 witness: the amended statement instantiated at envFail3rd with 5
samples requested and the 3rd exchange failing. -/
theorem readFIFO_stops_at_first_error_witness :
    (MAX30003_ReadFIFO envFail3rd 0 5).status = (envFail3rd (0 + (3 - 1))).1 ∧
    (MAX30003_ReadFIFO envFail3rd 0 5).writes =
      (List.range 3).map (fun j => (j, word24 (envFail3rd (0 + j)).2)) ∧
    (MAX30003_ReadFIFO envFail3rd 0 5).next = 0 + 3 :=
  readFIFO_stops_at_first_error envFail3rd 0 5 3 (by decide) (by decide)
    (by decide) (by decide)

/-- C4 (code-bug evidence): MAX30003_IRQHandler discards the status returned
by MAX30003_GetInterruptStatus, so after a failed STATUS read (every
transaction of envERR fails) it dispatches on the stale/uninitialised
enabled_active value 0x800000 and drains the FIFO — a handler action is
performed even though the status/enable read failed. -/
theorem irq_dispatch_after_failed_read :
    (MAX30003_GetInterruptStatus envERR 0 0x800000).status = HAL_ERROR ∧
    (MAX30003_IRQHandler envERR 0 0x800000).actions = [IrqAction.drainFifo 32] := by decide

/-- The FIFO loop's command bytes from the second iteration on: once i ≠ 0
the command byte stays txb for every remaining successful exchange. -/
theorem readFifoGo_commands_const (env : SpiEnv) :
    ∀ (fuel n txb i : Nat), i ≠ 0 →
    (∀ j, j < fuel → (env (n + j)).1 = HAL_OK) →
    commandBytes (readFifoGo env txb i n fuel).trace = List.replicate fuel txb := by
  intro fuel
  induction fuel with
  | zero => intro n txb i _ _; rfl
  | succ fuel ih =>
    intro n txb i hi hok
    have h0 : (env n).1 = HAL_OK := by simpa using hok 0 (by omega)
    have hok1 : ∀ j, j < fuel → (env (n + 1 + j)).1 = HAL_OK := fun j hj => by
      have := hok (j + 1) (by omega)
      rwa [show n + (j + 1) = n + 1 + j by omega] at this
    have hstep : commandBytes (readFifoGo env txb i n (fuel + 1)).trace =
        txb :: commandBytes (readFifoGo env txb (i + 1) (n + 1) fuel).trace := by
      simp [readFifoGo, MAX30003_SPI_TransmitReceive, h0, hi, commandBytes]
    rw [hstep, ih (n + 1) txb (i + 1) (by omega) hok1, List.replicate_succ]

/-- The FIFO loop starting at i = 0 with every exchange succeeding: the
first exchange carries the initial command byte, every later one 0x00. -/
theorem readFifoGo_commands_start (env : SpiEnv) (f n txb : Nat)
    (hok : ∀ j, j < f + 1 → (env (n + j)).1 = HAL_OK) :
    commandBytes (readFifoGo env txb 0 n (f + 1)).trace = txb :: List.replicate f 0x00 := by
  have h0 : (env n).1 = HAL_OK := by simpa using hok 0 (by omega)
  cases f with
  | zero => simp [readFifoGo, MAX30003_SPI_TransmitReceive, h0, commandBytes]
  | succ f =>
    have hok1 : ∀ j, j < f + 1 → (env (n + 1 + j)).1 = HAL_OK := fun j hj => by
      have := hok (j + 1) (by omega)
      rwa [show n + (j + 1) = n + 1 + j by omega] at this
    have hstep : commandBytes (readFifoGo env txb 0 n (f + 1 + 1)).trace =
        txb :: commandBytes (readFifoGo env 0x00 1 (n + 1) (f + 1)).trace := by
      simp [readFifoGo, MAX30003_SPI_TransmitReceive, h0, commandBytes]
    rw [hstep, readFifoGo_commands_const env (f + 1) (n + 1) 0x00 1 (by omega) hok1]

/-- C7: MAX30003_ReadFIFO with count = 1 issues exactly one exchange with
command byte (0x21<<1)|1; with count > 1 it issues a first exchange with
command byte (0x20<<1)|1 followed by count−1 exchanges with command byte
0x00, in that order. -/
theorem readFIFO_commands (env : SpiEnv) (n count : Nat) (hc : 0 < count)
    (hok : ∀ j, j < count → (env (n + j)).1 = HAL_OK) :
    commandBytes (MAX30003_ReadFIFO env n count).trace =
      (if count = 1 then (MAX30003_FIFO_CMD_ECG <<< 1) ||| 0x01
       else (MAX30003_FIFO_CMD_ECG_BURST <<< 1) ||| 0x01) ::
        List.replicate (count - 1) 0x00 := by
  match count, hc with
  | c + 1, _ =>
    have hstart := readFifoGo_commands_start env c n
      ((((if c + 1 > 1 then MAX30003_FIFO_CMD_ECG_BURST else MAX30003_FIFO_CMD_ECG) <<< 1)
          ||| 0x01) % 256) hok
    have hdef : MAX30003_ReadFIFO env n (c + 1) = readFifoGo env
        ((((if c + 1 > 1 then MAX30003_FIFO_CMD_ECG_BURST else MAX30003_FIFO_CMD_ECG) <<< 1)
          ||| 0x01) % 256) 0 n (c + 1) := rfl
    rw [hdef, hstart, show c + 1 - 1 = c by omega]
    cases c with
    | zero => decide
    | succ c =>
      rw [if_pos (by omega : c + 1 + 1 > 1), if_neg (by omega : ¬(c + 1 + 1 = 1))]
      rfl

/-- C7 witness: through envOK, a 1-sample read issues the single command
byte 0x43 and a 4-sample read issues 0x41 followed by three 0x00 bytes. -/
theorem readFIFO_commands_witness :
    commandBytes (MAX30003_ReadFIFO envOK 0 1).trace =
      (if 1 = 1 then (MAX30003_FIFO_CMD_ECG <<< 1) ||| 0x01
       else (MAX30003_FIFO_CMD_ECG_BURST <<< 1) ||| 0x01) ::
        List.replicate (1 - 1) 0x00 ∧
    commandBytes (MAX30003_ReadFIFO envOK 0 4).trace =
      (if 4 = 1 then (MAX30003_FIFO_CMD_ECG <<< 1) ||| 0x01
       else (MAX30003_FIFO_CMD_ECG_BURST <<< 1) ||| 0x01) ::
        List.replicate (4 - 1) 0x00 :=
  ⟨readFIFO_commands envOK 0 1 (by decide) (by decide),
   readFIFO_commands envOK 0 4 (by decide) (by decide)⟩

end MAX30003
